import Mathlib

/-!
Verification of the Training Catalogue Manager ingestion/reconciliation core.

This file gives a shallow embedding, in Lean 4, of the parts of the
repository that the claims concern:

* src/db.py : upsert_resource, batch_upsert_resources (ON CONFLICT path),
  archive_stale_resources, make_resource_key, transaction
* src/services/container_service.py : parse_path, is_leaf_container,
  parse_links_content, EXCLUDED_FILENAMES, the links.txt branches of
  import_from_zip and import_from_folder
* src/services/sharepoint_service.py : EXCLUDED_FILENAMES,
  validate_item_in_scope, _traverse_folder, _process_links_file

Python strings are modelled as Lean String / List Char; Python str helper
methods (strip, split, lower, startswith, in) are re-implemented below with
Python semantics.  hashlib.sha256 is implemented in full (FIPS 180-4) over
Nat with explicit mod 2^32.  The PostgreSQL resources table is modelled as
a list of rows; SQL statements become pure functions on that list.
-/

namespace TCM

/-! ## Python string primitives -/

/-- Python str.strip() whitespace set: space, tab, newline, carriage return,
vertical tab, form feed. -/
def pySpace (c : Char) : Bool :=
  c == ' ' || c == '\t' || c == '\n' || c == '\x0d' || c == '\x0b' || c == '\x0c'

/-- Left strip of Python whitespace (str.lstrip()). -/
def lstrip (l : List Char) : List Char := l.dropWhile pySpace

/-- Right strip of Python whitespace (str.rstrip()), structurally recursive. -/
def rstrip : List Char → List Char
  | [] => []
  | c :: l =>
    let r := rstrip l
    if r.isEmpty then (if pySpace c then [] else [c]) else c :: r

/-- Python str.strip(): both ends. -/
def pyStrip (l : List Char) : List Char := lstrip (rstrip l)

/-- String-level Python strip. -/
def pyStripS (s : String) : String := String.mk (pyStrip s.data)

/-- Helper for splitting on a single newline character: returns the first
line and the list of remaining lines, mirroring Python str.split. -/
def splitLinesP : List Char → List Char × List (List Char)
  | [] => ([], [])
  | c :: l =>
    let p := splitLinesP l
    if c == '\n' then ([], p.1 :: p.2) else (c :: p.1, p.2)

/-- Python s.split(chr(10)): always at least one (possibly empty) line. -/
def splitLines (l : List Char) : List (List Char) :=
  (splitLinesP l).1 :: (splitLinesP l).2

/-- ASCII lowercase (Python str.lower() restricted to ASCII letters; all
data handled by the repository paths/filenames is ASCII). -/
def asciiLowerChar (c : Char) : Char :=
  if 'A' ≤ c ∧ c ≤ 'Z' then Char.ofNat (c.toNat + 32) else c

/-- Python str.lower() on a string (ASCII). -/
def pyLower (s : String) : String := String.mk (s.data.map asciiLowerChar)

/-- Python str.startswith(pat). -/
def pyStarts (pat : String) (l : List Char) : Bool :=
  pat.data.isPrefixOf l

/-- Python substring membership test (pat in s): true when pat occurs as a
contiguous run of s (the empty pattern is always contained). -/
def pyIn (pat : List Char) : List Char → Bool
  | [] => pat.isEmpty
  | c :: rest => pat.isPrefixOf (c :: rest) || pyIn pat rest

/-- Python s.strip(ch): strip the single character ch from both ends. -/
def stripCharL (ch : Char) (l : List Char) : List Char := l.dropWhile (· == ch)

/-- Right strip of a single character. -/
def stripCharR (ch : Char) : List Char → List Char
  | [] => []
  | c :: l =>
    let r := stripCharR ch l
    if r.isEmpty then (if c == ch then [] else [c]) else c :: r

/-- Python s.strip(ch) for one character ch. -/
def stripChar (ch : Char) (l : List Char) : List Char :=
  stripCharL ch (stripCharR ch l)

/-- Python s.split(sep) for a single-character separator. -/
def splitOnCharP (sep : Char) : List Char → List Char × List (List Char)
  | [] => ([], [])
  | c :: l =>
    let p := splitOnCharP sep l
    if c == sep then ([], p.1 :: p.2) else (c :: p.1, p.2)

/-- Python s.split(sep), single-character separator. -/
def splitOnChar (sep : Char) (l : List Char) : List (List Char) :=
  (splitOnCharP sep l).1 :: (splitOnCharP sep l).2

/-- Python s.split(under, 1)[0] for the underscore separator: the run of
characters before the first underscore. -/
def beforeFirstUnderscore (l : List Char) : List Char :=
  l.takeWhile (· != '_')

/-- Python slicing s[:n] on strings. -/
def pyTake (n : Nat) (s : String) : String := String.mk (s.data.take n)

/-! ## SHA-256 (hashlib.sha256, FIPS 180-4), over Nat mod 2^32 -/

/-- 2^32, the word modulus. -/
def M32 : Nat := 4294967296

/-- Addition of a list of 32-bit words modulo 2^32. -/
def add32 (l : List Nat) : Nat := (l.foldl (· + ·) 0) % M32

/-- Bitwise exclusive or (word-sized inputs stay word-sized). -/
def xor32 (a b : Nat) : Nat := Nat.xor a b

/-- Right rotation of a 32-bit word. -/
def rotr32 (r x : Nat) : Nat :=
  ((x >>> r) + ((x <<< (32 - r)) % M32)) % M32

/-- Right shift of a 32-bit word. -/
def shr32 (r x : Nat) : Nat := x >>> r

/-- SHA-256 round constants, rounds 0 to 15 (FIPS 180-4, in decimal). -/
def sha256Ka : List Nat :=
  [1116352408, 1899447441, 3049323471, 3921009573,
   961987163, 1508970993, 2453635748, 2870763221,
   3624381080, 310598401, 607225278, 1426881987,
   1925078388, 2162078206, 2614888103, 3248222580]

/-- SHA-256 round constants, rounds 16 to 31. -/
def sha256Kb : List Nat :=
  [3835390401, 4022224774, 264347078, 604807628,
   770255983, 1249150122, 1555081692, 1996064986,
   2554220882, 2821834349, 2952996808, 3210313671,
   3336571891, 3584528711, 113926993, 338241895]

/-- SHA-256 round constants, rounds 32 to 47. -/
def sha256Kc : List Nat :=
  [666307205, 773529912, 1294757372, 1396182291,
   1695183700, 1986661051, 2177026350, 2456956037,
   2730485921, 2820302411, 3259730800, 3345764771,
   3516065817, 3600352804, 4094571909, 275423344]

/-- SHA-256 round constants, rounds 48 to 63. -/
def sha256Kd : List Nat :=
  [430227734, 506948616, 659060556, 883997877,
   958139571, 1322822218, 1537002063, 1747873779,
   1955562222, 2024104815, 2227730452, 2361852424,
   2428436474, 2756734187, 3204031479, 3329325298]

/-- The 64 SHA-256 round constants. -/
def sha256K : List Nat := sha256Ka ++ sha256Kb ++ sha256Kc ++ sha256Kd

/-- Hash state: eight 32-bit words. -/
structure H8 where
  a : Nat
  b : Nat
  c : Nat
  d : Nat
  e : Nat
  f : Nat
  g : Nat
  h : Nat
deriving Repr, DecidableEq

/-- SHA-256 initial hash value (FIPS 180-4, in decimal). -/
def sha256H0 : H8 :=
  ⟨1779033703, 3144134277, 1013904242, 2773480762,
   1359893119, 2600822924, 528734635, 1541459225⟩

/-- Small sigma 0 message-schedule function. -/
def ssig0 (x : Nat) : Nat := xor32 (xor32 (rotr32 7 x) (rotr32 18 x)) (shr32 3 x)

/-- Small sigma 1 message-schedule function. -/
def ssig1 (x : Nat) : Nat := xor32 (xor32 (rotr32 17 x) (rotr32 19 x)) (shr32 10 x)

/-- Big sigma 0 compression function. -/
def bsig0 (x : Nat) : Nat := xor32 (xor32 (rotr32 2 x) (rotr32 13 x)) (rotr32 22 x)

/-- Big sigma 1 compression function. -/
def bsig1 (x : Nat) : Nat := xor32 (xor32 (rotr32 6 x) (rotr32 11 x)) (rotr32 25 x)

/-- Choose function. -/
def chFn (x y z : Nat) : Nat :=
  xor32 (Nat.land x y) (Nat.land (Nat.xor x (M32 - 1)) z)

/-- Majority function. -/
def majFn (x y z : Nat) : Nat :=
  xor32 (xor32 (Nat.land x y) (Nat.land x z)) (Nat.land y z)

/-- Big-endian packing of 4 bytes into 32-bit words. -/
def bytesToWords : List Nat → List Nat
  | b0 :: b1 :: b2 :: b3 :: rest =>
    (((b0 * 256 + b1) * 256 + b2) * 256 + b3) :: bytesToWords rest
  | _ => []

/-- Extend the 16 block words to the 64-entry message schedule. -/
def extendSchedule (w16 : List Nat) : List Nat :=
  (List.range 48).foldl
    (fun w _ =>
      let n := w.length
      w ++ [add32 [ssig1 (w.getD (n - 2) 0), w.getD (n - 7) 0,
                   ssig0 (w.getD (n - 15) 0), w.getD (n - 16) 0]])
    w16

/-- One SHA-256 round. -/
def round256 (st : H8) (kw : Nat × Nat) : H8 :=
  let t1 := add32 [st.h, bsig1 st.e, chFn st.e st.f st.g, kw.1, kw.2]
  let t2 := add32 [bsig0 st.a, majFn st.a st.b st.c]
  ⟨add32 [t1, t2], st.a, st.b, st.c, add32 [st.d, t1], st.e, st.f, st.g⟩

/-- Compress one 64-byte block into the running hash state. -/
def compressBlock (st : H8) (block : List Nat) : H8 :=
  let w := extendSchedule (bytesToWords block)
  let r := (sha256K.zip w).foldl round256 st
  ⟨add32 [st.a, r.a], add32 [st.b, r.b], add32 [st.c, r.c], add32 [st.d, r.d],
   add32 [st.e, r.e], add32 [st.f, r.f], add32 [st.g, r.g], add32 [st.h, r.h]⟩

/-- Split the padded message into 64-byte blocks (fuel-based structural
recursion; fuel = list length always suffices since each step drops 64). -/
def toBlocksAux : Nat → List Nat → List (List Nat)
  | _, [] => []
  | 0, _ :: _ => []
  | fuel + 1, c :: l => (c :: l).take 64 :: toBlocksAux fuel ((c :: l).drop 64)

/-- Split the padded message into 64-byte blocks. -/
def toBlocks (l : List Nat) : List (List Nat) := toBlocksAux l.length l

/-- SHA-256 padding: append 0x80, zeros, and the 64-bit big-endian bit
length, to a multiple of 64 bytes. -/
def sha256Pad (msg : List Nat) : List Nat :=
  let len := msg.length
  let k := (64 + 56 - ((len + 1) % 64)) % 64
  let ml := 8 * len
  msg ++ [0x80] ++ List.replicate k 0 ++
    [ml >>> 56 % 256, ml >>> 48 % 256, ml >>> 40 % 256, ml >>> 32 % 256,
     ml >>> 24 % 256, ml >>> 16 % 256, ml >>> 8 % 256, ml % 256]

/-- Big-endian bytes of a 32-bit word. -/
def bytes4 (w : Nat) : List Nat :=
  [w >>> 24 % 256, w >>> 16 % 256, w >>> 8 % 256, w % 256]

/-- SHA-256 digest of a byte list: 32 bytes. -/
def sha256Bytes (msg : List Nat) : List Nat :=
  let st := (toBlocks (sha256Pad msg)).foldl compressBlock sha256H0
  bytes4 st.a ++ bytes4 st.b ++ bytes4 st.c ++ bytes4 st.d ++
  bytes4 st.e ++ bytes4 st.f ++ bytes4 st.g ++ bytes4 st.h

/-- UTF-8 encoding of one character (Python str.encode()). -/
def utf8Char (c : Char) : List Nat :=
  let n := c.toNat
  if n < 0x80 then [n]
  else if n < 0x800 then [0xC0 + n / 64, 0x80 + n % 64]
  else if n < 0x10000 then
    [0xE0 + n / 4096, 0x80 + (n / 64) % 64, 0x80 + n % 64]
  else
    [0xF0 + n / 262144, 0x80 + (n / 4096) % 64, 0x80 + (n / 64) % 64, 0x80 + n % 64]

/-- Python s.encode(): UTF-8 bytes of a string. -/
def utf8Bytes (s : String) : List Nat := s.data.flatMap utf8Char

/-- Lowercase hex digit of a value below 16. -/
def hexDigit (n : Nat) : Char :=
  Char.ofNat (if n < 10 then 48 + n else 87 + n)

/-- Lowercase hex encoding of a byte list (hashlib hexdigest). -/
def bytesToHex (l : List Nat) : List Char :=
  l.flatMap (fun b => [hexDigit (b / 16), hexDigit (b % 16)])

/-- hashlib.sha256(s.encode()).hexdigest(). -/
def sha256hex (s : String) : String :=
  String.mk (bytesToHex (sha256Bytes (utf8Bytes s)))

/-! ## src/db.py : the resources table and its operations

The PostgreSQL resources table (CREATE TABLE in init_db) is modelled as a
list of rows.  Columns declared NOT NULL (resource_key, relative_path,
resource_type) are plain values; every other column is Option-valued
(SQL NULL = none).  INTEGER columns are Int. -/

/-- One row of the resources table (column order of the CREATE TABLE). -/
structure Row where
  resource_key : String
  drive_item_id : Option String
  relative_path : String
  bucket : Option String
  primary_department : Option String
  sub_department : Option String
  training_type : Option String
  resource_type : String
  display_name : Option String
  web_url : Option String
  resource_count : Option Int
  valid_link_count : Option Int
  contents_count : Option Int
  is_placeholder : Option Int
  scrub_status : Option String
  scrub_notes : Option String
  scrub_owner : Option String
  scrub_updated : Option String
  invest_decision : Option String
  invest_owner : Option String
  invest_effort : Option String
  invest_notes : Option String
  invest_updated : Option String
  first_seen : Option String
  last_seen : Option String
  source : Option String
  is_archived : Option Int
  audience : Option String
  approved_for_investment : Option Int
  scrub_reasons : Option String
  sales_stage : Option String
deriving Repr, DecidableEq

/-- The user-entered decision fields that re-syncs must never overwrite
(scrub triage, investment triage, audience, approval, sales stage). -/
structure UserDecision where
  scrub_status : Option String
  scrub_notes : Option String
  scrub_owner : Option String
  scrub_reasons : Option String
  scrub_updated : Option String
  invest_decision : Option String
  invest_owner : Option String
  invest_effort : Option String
  invest_notes : Option String
  invest_updated : Option String
  audience : Option String
  approved_for_investment : Option Int
  sales_stage : Option String
deriving Repr, DecidableEq

/-- Projection of a row onto its user-decision fields. -/
def rowUser (r : Row) : UserDecision :=
  ⟨r.scrub_status, r.scrub_notes, r.scrub_owner, r.scrub_reasons, r.scrub_updated,
   r.invest_decision, r.invest_owner, r.invest_effort, r.invest_notes, r.invest_updated,
   r.audience, r.approved_for_investment, r.sales_stage⟩

/-- The metadata columns that the upsert UPDATE statements assign
(the SET list shared by upsert_resource and the ON CONFLICT clause,
minus is_archived which is stated separately). -/
structure MetaCols where
  relative_path : String
  bucket : Option String
  primary_department : Option String
  sub_department : Option String
  training_type : Option String
  display_name : Option String
  web_url : Option String
  resource_count : Option Int
  valid_link_count : Option Int
  contents_count : Option Int
  is_placeholder : Option Int
  last_seen : Option String
  source : Option String
  drive_item_id : Option String
deriving Repr, DecidableEq

/-- Projection of a row onto the upsert-managed metadata columns. -/
def rowMeta (r : Row) : MetaCols :=
  ⟨r.relative_path, r.bucket, r.primary_department, r.sub_department, r.training_type,
   r.display_name, r.web_url, r.resource_count, r.valid_link_count, r.contents_count,
   r.is_placeholder, r.last_seen, r.source, r.drive_item_id⟩

/-- Python keyword arguments of db.upsert_resource (single-row path). -/
structure UpsertArgs where
  resource_key : String
  relative_path : String
  resource_type : String
  bucket : Option String
  primary_department : Option String
  sub_department : Option String
  training_type : Option String
  display_name : Option String
  web_url : Option String
  resource_count : Int
  valid_link_count : Int
  contents_count : Int
  is_placeholder : Bool
  source : String
  drive_item_id : Option String
  last_seen_override : Option String
deriving Repr, DecidableEq

/-- Python x or y for an optional string x (None and the empty string are
falsy). -/
def pyOrS (o : Option String) (d : String) : String :=
  match o with
  | some s => if s == "" then d else s
  | none => d

/-- db.make_resource_key: SharePoint id when truthy, else
sha256(lower(relative_path) + bar + resource_type) hexdigest[:32]. -/
def make_resource_key (drive_item_id : Option String) (relative_path : String)
    (resource_type : String) : String :=
  let hk := pyTake 32 (sha256hex (pyLower relative_path ++ "|" ++ resource_type))
  match drive_item_id with
  | some d => if d == "" then hk else d
  | none => hk

/-- The UPDATE branch of db.upsert_resource: assigns exactly the metadata
columns of the SET list and forces is_archived = 0; every other column of
the row is left untouched. -/
def singleUpdateRow (a : UpsertArgs) (now : String) (r : Row) : Row :=
  { r with
    relative_path := a.relative_path
    bucket := a.bucket
    primary_department := a.primary_department
    sub_department := a.sub_department
    training_type := a.training_type
    display_name := a.display_name
    web_url := a.web_url
    resource_count := some a.resource_count
    valid_link_count := some a.valid_link_count
    contents_count := some a.contents_count
    is_placeholder := some (if a.is_placeholder then 1 else 0)
    last_seen := some now
    source := some a.source
    drive_item_id := a.drive_item_id
    is_archived := some 0 }

/-- The INSERT branch of db.upsert_resource: the 18 listed columns get the
given values (first_seen = last_seen = now, is_archived = 0); the columns
absent from the INSERT list take their schema defaults
(scrub_status DEFAULT not_reviewed, approved_for_investment DEFAULT 0,
remaining text columns NULL). -/
def insertRow (a : UpsertArgs) (now : String) : Row :=
  { resource_key := a.resource_key
    drive_item_id := a.drive_item_id
    relative_path := a.relative_path
    bucket := a.bucket
    primary_department := a.primary_department
    sub_department := a.sub_department
    training_type := a.training_type
    resource_type := a.resource_type
    display_name := a.display_name
    web_url := a.web_url
    resource_count := some a.resource_count
    valid_link_count := some a.valid_link_count
    contents_count := some a.contents_count
    is_placeholder := some (if a.is_placeholder then 1 else 0)
    scrub_status := some "not_reviewed"
    scrub_notes := none
    scrub_owner := none
    scrub_updated := none
    invest_decision := none
    invest_owner := none
    invest_effort := none
    invest_notes := none
    invest_updated := none
    first_seen := some now
    last_seen := some now
    source := some a.source
    is_archived := some 0
    audience := none
    approved_for_investment := some 0
    scrub_reasons := none
    sales_stage := none }

/-- db.upsert_resource: SELECT by key, then UPDATE metadata or INSERT.
currentTime stands for datetime.now(timezone.utc).isoformat(); the code
uses now = last_seen_override or currentTime.  Returns (new table state,
True if a new row was inserted). -/
def upsert_resource (a : UpsertArgs) (currentTime : String) (db : List Row) :
    List Row × Bool :=
  let now := pyOrS a.last_seen_override currentTime
  if db.any (fun r => r.resource_key == a.resource_key) then
    (db.map (fun r =>
      if r.resource_key == a.resource_key then singleUpdateRow a now r else r),
     false)
  else
    (db ++ [insertRow a now], true)

/-! ### Batched upsert (INSERT ... ON CONFLICT DO UPDATE) -/

/-- One input dict of batch_upsert_resources: the _UPSERT_COLUMNS keys,
each possibly None (row.get). -/
structure BatchRow where
  resource_key : Option String
  drive_item_id : Option String
  relative_path : Option String
  bucket : Option String
  primary_department : Option String
  sub_department : Option String
  training_type : Option String
  resource_type : Option String
  display_name : Option String
  web_url : Option String
  resource_count : Option Int
  valid_link_count : Option Int
  contents_count : Option Int
  is_placeholder : Option Int
  first_seen : Option String
  last_seen : Option String
  source : Option String
  is_archived : Option Int
deriving Repr, DecidableEq

/-- The _REQUIRED_KEYS validation of batch_upsert_resources: resource_key,
relative_path and resource_type must be present and not None. -/
def missingRequired (b : BatchRow) : Bool :=
  b.resource_key.isNone || b.relative_path.isNone || b.resource_type.isNone

/-- The DO UPDATE clause of _UPSERT_SQL: assigns from EXCLUDED exactly the
metadata columns and sets is_archived = 0.  The getD defaults never fire:
conflictUpdateRow is only reached after missingRequired validation. -/
def conflictUpdateRow (b : BatchRow) (r : Row) : Row :=
  { r with
    relative_path := b.relative_path.getD ""
    bucket := b.bucket
    primary_department := b.primary_department
    sub_department := b.sub_department
    training_type := b.training_type
    display_name := b.display_name
    web_url := b.web_url
    resource_count := b.resource_count
    valid_link_count := b.valid_link_count
    contents_count := b.contents_count
    is_placeholder := b.is_placeholder
    last_seen := b.last_seen
    source := b.source
    drive_item_id := b.drive_item_id
    is_archived := some 0 }

/-- The INSERT arm of _UPSERT_SQL: the 18 _UPSERT_COLUMNS get the tuple
values; the remaining columns take their schema defaults. -/
def conflictInsertRow (b : BatchRow) : Row :=
  { resource_key := b.resource_key.getD ""
    drive_item_id := b.drive_item_id
    relative_path := b.relative_path.getD ""
    bucket := b.bucket
    primary_department := b.primary_department
    sub_department := b.sub_department
    training_type := b.training_type
    resource_type := b.resource_type.getD ""
    display_name := b.display_name
    web_url := b.web_url
    resource_count := b.resource_count
    valid_link_count := b.valid_link_count
    contents_count := b.contents_count
    is_placeholder := b.is_placeholder
    scrub_status := some "not_reviewed"
    scrub_notes := none
    scrub_owner := none
    scrub_updated := none
    invest_decision := none
    invest_owner := none
    invest_effort := none
    invest_notes := none
    invest_updated := none
    first_seen := b.first_seen
    last_seen := b.last_seen
    source := b.source
    is_archived := b.is_archived
    audience := none
    approved_for_investment := some 0
    scrub_reasons := none
    sales_stage := none }

/-- Row-at-a-time semantics of INSERT ... ON CONFLICT (resource_key)
DO UPDATE for one VALUES tuple. -/
def conflictApply (b : BatchRow) (db : List Row) : List Row :=
  if db.any (fun r => r.resource_key == b.resource_key.getD "") then
    db.map (fun r =>
      if r.resource_key == b.resource_key.getD "" then conflictUpdateRow b r else r)
  else
    db ++ [conflictInsertRow b]

/-- db.batch_upsert_resources: empty input returns 0 without touching the
table; otherwise every row is validated (ValueError on a missing required
key, before any write), then all tuples are applied in order; returns the
number of rows processed. -/
def batch_upsert_resources (rows : List BatchRow) (db : List Row) :
    Except String (List Row × Nat) :=
  if rows.isEmpty then .ok (db, 0)
  else if rows.any missingRequired then .error "ValueError: missing required key"
  else .ok (rows.foldl (fun acc b => conflictApply b acc) db, rows.length)

/-! ### Stale archival and transactions -/

/-- The WHERE predicate of archive_stale_resources: active rows whose
last_seen is strictly below the sync timestamp or NULL. -/
def staleRow (sync_started_at : String) (r : Row) : Bool :=
  r.is_archived == some 0 &&
    (match r.last_seen with
     | none => true
     | some s => decide (s < sync_started_at))

/-- Row transformation of the archive UPDATE. -/
def archiveRowUpdate (sync_started_at : String) (r : Row) : Row :=
  if staleRow sync_started_at r then { r with is_archived := some 1 } else r

/-- db.archive_stale_resources: one UPDATE over the table, returning the
new table and the rowcount of updated rows. -/
def archive_stale_resources (sync_started_at : String) (db : List Row) :
    List Row × Nat :=
  db.foldr
    (fun r acc =>
      if staleRow sync_started_at r then
        ({ r with is_archived := some 1 } :: acc.1, acc.2 + 1)
      else (r :: acc.1, acc.2))
    ([], 0)

/-- Result discriminator for Except (used to state commit conditions). -/
def exceptOk {ε α : Type} : Except ε α → Bool
  | .ok _ => true
  | .error _ => false

/-- db.transaction as a combinator: run the body on the table; commit
exactly once on success, roll the table back on any exception.  The Nat
component counts commits. -/
def transactionRun {α : Type} (body : List Row → Except String (List Row × α))
    (db : List Row) : List Row × Except String α × Nat :=
  match body db with
  | .error e => (db, .error e, 0)
  | .ok (s, v) => (s, .ok v, 1)

/-- Phase 2 of container_service.import_from_folder: a single transaction
performing batch_upsert_resources followed by archive_stale_resources. -/
def importPhase2 (rows : List BatchRow) (sync_started_at : String)
    (db : List Row) : List Row × Except String (Nat × Nat) × Nat :=
  transactionRun
    (fun s =>
      match batch_upsert_resources rows s with
      | .error e => .error e
      | .ok (s1, n) =>
        let a := archive_stale_resources sync_started_at s1
        .ok (a.1, (n, a.2)))
    db

/-! ## src/services/container_service.py -/

namespace container_service

/-- Prefix test on char lists (Python startswith). -/
def pyStartsL (pat l : List Char) : Bool := pat.isPrefixOf l

/-- Python str.replace(a, b) for single characters. -/
def charReplace (a b : Char) (l : List Char) : List Char :=
  l.map (fun c => if c == a then b else c)

/-- Template structure constant BUCKETS (dict in insertion order). -/
def BUCKETS : List (String × String) :=
  [("01_onboarding", "onboarding"),
   ("02_upskilling", "upskilling"),
   ("03_not sure (drop here)", "not_sure")]

/-- Template structure constant TRAINING_TYPES (dict in insertion order;
the second spelling of each instructor-led key uses U+2013). -/
def TRAINING_TYPES : List (String × String) :=
  [("01_instructor led - in person", "instructor_led_in_person"),
   ("01_instructor led – in person", "instructor_led_in_person"),
   ("02_instructor led - virtual", "instructor_led_virtual"),
   ("02_instructor led – virtual", "instructor_led_virtual"),
   ("03_self directed", "self_directed"),
   ("04_video on demand", "video_on_demand"),
   ("05_job aids", "job_aids"),
   ("06_resources", "resources")]

/-- OS metadata and template files excluded from ingestion
(container_service.EXCLUDED_FILENAMES, compared with filename.lower()). -/
def EXCLUDED_FILENAMES : List String :=
  ["desktop.ini", ".ds_store", "thumbs.db", "instructions.txt", "instructions.pdf"]

/-- Membership of filename.lower() in the container_service denylist. -/
def excludedHere (filename : String) : Bool :=
  EXCLUDED_FILENAMES.contains (pyLower filename)

/-- container_service.normalize_bucket: two lookup passes over BUCKETS
with early return, else the cleaned name (structure is authoritative). -/
def normalize_bucket (name : String) : Option String :=
  if name == "" then none
  else
    let key := pyStrip (pyLower name).data
    let pass1 := BUCKETS.findSome? (fun pb =>
      if pyStartsL (beforeFirstUnderscore pb.1.data) key
          && pyIn (charReplace '_' ' ' pb.2.data) (charReplace '_' ' ' key) then
        some pb.2
      else if key == pb.1.data then some pb.2
      else none)
    match pass1 with
    | some b => some b
    | none =>
      let pass2 := BUCKETS.findSome? (fun pb =>
        if pyIn pb.2.data (charReplace '-' ' ' (charReplace '_' ' ' key)) then
          some pb.2
        else none)
      match pass2 with
      | some b => some b
      | none => some (String.mk key)

/-- container_service.normalize_training_type: exact key match, or match
after normalizing en/em dashes to hyphens; None otherwise. -/
def normalize_training_type (name : String) : Option String :=
  let key := pyStrip (pyLower name).data
  TRAINING_TYPES.findSome? (fun pt =>
    if key == pt.1.data then some pt.2
    else
      let cleanKey := charReplace '—' '-' (charReplace '–' '-' key)
      let cleanName := charReplace '—' '-' (charReplace '–' '-' pt.1.data)
      if cleanKey == cleanName then some pt.2 else none)

/-- Result of container_service.parse_path. -/
structure ParsedPath where
  bucket : Option String
  primary_department : Option String
  sub_department : Option String
  training_type : Option String
  depth : Nat
deriving Repr, DecidableEq

/-- container_service.parse_path: normalize separators, split, and read
the four taxonomy levels; depth is the number of non-empty segments. -/
def parse_path (relative_path : String) : ParsedPath :=
  let path := stripChar '/' (charReplace '\\' '/' relative_path.data)
  let parts := (splitOnChar '/' path).filter (fun p => !p.isEmpty)
  { bucket :=
      if parts.length > 2 then normalize_bucket (String.mk (parts.getD 2 [])) else none
    primary_department :=
      if parts.length > 0 then some (String.mk (parts.getD 0 [])) else none
    sub_department :=
      if parts.length > 1 then some (String.mk (parts.getD 1 [])) else none
    training_type :=
      if parts.length > 3 then normalize_training_type (String.mk (parts.getD 3 [])) else none
    depth := parts.length }

/-- container_service.get_container_depth: the L3 depth constant. -/
def get_container_depth (_bucket : String) : Nat := 4

/-- container_service.is_leaf_container, verbatim structure: links.txt at
exactly the L3 depth; folders at exactly L3+1; other files at depth >= L3. -/
def is_leaf_container (relative_path : String) (is_folder : Bool)
    (filename : String) : Bool :=
  let parsed := parse_path relative_path
  let current_depth := parsed.depth
  let l3_depth := 4
  if pyLower filename == "links.txt" then current_depth == l3_depth
  else if is_folder then current_depth == l3_depth + 1
  else decide (current_depth ≥ l3_depth)

/-- Result of container_service.parse_links_content. -/
structure LinksData where
  valid_link_count : Nat
  is_placeholder : Bool
  resource_count : Nat
  urls : List String
deriving Repr, DecidableEq

/-- The per-line loop of parse_links_content: strip, skip blanks and
comment lines, prepend https:// to www. lines, keep http(s) lines. -/
def processLinkLines : List (List Char) → List (List Char)
  | [] => []
  | raw :: rest =>
    let line := pyStrip raw
    if line.isEmpty || pyStartsL ['#'] line then processLinkLines rest
    else if pyStartsL "www.".data line then
      ("https://".data ++ line) :: processLinkLines rest
    else if !(pyStartsL "http://".data line || pyStartsL "https://".data line) then
      processLinkLines rest
    else line :: processLinkLines rest

/-- container_service.parse_links_content. -/
def parse_links_content (content : String) : LinksData :=
  let lines := if content == "" then [] else splitLines (pyStrip content.data)
  let urls := processLinkLines lines
  { valid_link_count := urls.length
    is_placeholder := urls.length == 0
    resource_count := urls.length
    urls := urls.map String.mk }

/-! ### The links.txt expansion branches of the three ingestion paths -/

/-- Relative path given to a link row: parent/links.txt#hash8 (the ZIP
branch special-cases an empty parent). -/
def zipLinkRelPath (parent_path url : String) : String :=
  let url_hash := pyTake 8 (sha256hex url)
  if parent_path == "" then "links.txt#" ++ url_hash
  else parent_path ++ "/links.txt#" ++ url_hash

/-- Resource key computed in the links.txt branch of import_from_zip:
make_resource_key on the derived link path with type link. -/
def zipLinkKey (parent_path url : String) : String :=
  make_resource_key none (zipLinkRelPath parent_path url) "link"

/-- Resource key computed in the links.txt branch of import_from_folder:
sha256 hexdigest[:16] of parent, url and the literal link, bar-joined. -/
def folderLinkKey (parent_path url : String) : String :=
  pyTake 16 (sha256hex (parent_path ++ "|" ++ url ++ "|link"))

/-- links.txt branch of import_from_zip: the upsert_resource calls made
for one links.txt entry (given parent path and decoded content), plus the
skipped counter increment (1 exactly when no valid URLs). -/
def zipLinksUpserts (parent_path content : String) : List UpsertArgs × Nat :=
  let parsed := parse_path parent_path
  let links_data := parse_links_content content
  let urls := links_data.urls
  (urls.map (fun url =>
      { resource_key := zipLinkKey parent_path url
        relative_path := zipLinkRelPath parent_path url
        resource_type := "link"
        bucket := parsed.bucket
        primary_department := parsed.primary_department
        sub_department := parsed.sub_department
        training_type := parsed.training_type
        display_name := some url
        web_url := some url
        resource_count := 1
        valid_link_count := 1
        contents_count := 0
        is_placeholder := false
        source := "zip"
        drive_item_id := none
        last_seen_override := none }),
   if urls.isEmpty then 1 else 0)

/-- links.txt branch of import_from_folder (phase 1): the BatchRow dicts
collected for one links.txt file, plus the skipped increment. -/
def folderLinksRows (parent_path content sync_started_at : String) :
    List BatchRow × Nat :=
  let parsed := parse_path parent_path
  let links_data := parse_links_content content
  let urls := links_data.urls
  (urls.map (fun url =>
      let url_hash := pyTake 8 (sha256hex url)
      { resource_key := some (folderLinkKey parent_path url)
        drive_item_id := none
        relative_path := some (parent_path ++ "/links.txt#" ++ url_hash)
        bucket := parsed.bucket
        primary_department := parsed.primary_department
        sub_department := parsed.sub_department
        training_type := parsed.training_type
        resource_type := some "link"
        display_name := some url
        web_url := some url
        resource_count := some 1
        valid_link_count := some 1
        contents_count := some 0
        is_placeholder := some 0
        first_seen := some sync_started_at
        last_seen := some sync_started_at
        source := some "folder"
        is_archived := some 0 }),
   if urls.isEmpty then 1 else 0)

end container_service

/-! ## src/services/sharepoint_service.py -/

namespace sharepoint_service

/-- OS artifacts excluded from ingestion
(sharepoint_service.EXCLUDED_FILENAMES). -/
def EXCLUDED_FILENAMES : List String :=
  ["desktop.ini", ".ds_store", "thumbs.db"]

/-- Membership of filename.lower() in the sharepoint_service denylist. -/
def excludedHere (filename : String) : Bool :=
  EXCLUDED_FILENAMES.contains (pyLower filename)

/-- The parentReference sub-dict of a Graph API item: driveId and path,
each possibly absent. -/
structure ParentRef where
  driveId : Option String
  path : Option String
deriving Repr, DecidableEq

/-- Python truthiness of an optional string (None and empty are falsy). -/
def truthyS : Option String → Bool
  | none => false
  | some s => s != ""

/-- sharepoint_service.validate_item_in_scope, as the predicate deciding
whether ScopeViolationError is raised.  A Graph item is represented by its
parentReference; none stands for a missing or empty (falsy) dict, since
the two are indistinguishable to every guard. -/
def validate_item_in_scope_raises (parentRef : Option ParentRef)
    (authorized_drive_id : String) : Bool :=
  match parentRef with
  | none => true
  | some pr =>
    if !truthyS pr.driveId then true
    else if pr.driveId.getD "" != authorized_drive_id then true
    else if !truthyS pr.path then true
    else !pyStarts ("/drives/" ++ authorized_drive_id ++ "/root:") (pr.path.getD "").data

/-- sharepoint_service._strip_drive_prefix. -/
def stripDrivePre (parent_path drive_id : String) : String :=
  let pre := "/drives/" ++ drive_id ++ "/root:"
  if pyStarts pre parent_path.data then
    String.mk (stripCharL '/' (parent_path.data.drop pre.length))
  else parent_path

/-- Graph item facet: the folder facet, the file facet, or neither. -/
inductive GKind where
  | folder
  | file
  | other
deriving Repr, DecidableEq

/-- A Graph API drive item as seen by _traverse_folder: name, facet,
parentReference and (for folders) the children the API returns. -/
inductive GItem where
  | node (name : String) (kind : GKind) (parentRef : Option ParentRef)
      (children : List GItem) : GItem

/-- Item name accessor. -/
def GItem.name : GItem → String
  | .node n _ _ _ => n

/-- Item facet accessor. -/
def GItem.kind : GItem → GKind
  | .node _ k _ _ => k

/-- Item parentReference accessor. -/
def GItem.parentRef : GItem → Option ParentRef
  | .node _ _ p _ => p

/-- Item children accessor. -/
def GItem.children : GItem → List GItem
  | .node _ _ _ c => c

/-- sharepoint_service._build_relative_path: strip the drive prefix from
parentReference.path (missing pieces default to the empty string) and
append the item name. -/
def buildRelativePath (it : GItem) (drive_id : String) : String :=
  let parent_path := (it.parentRef.bind ParentRef.path).getD ""
  let parent_relative := stripDrivePre parent_path drive_id
  if parent_relative != "" then parent_relative ++ "/" ++ it.name
  else it.name

/-- What a processed item turns into (the upsert call family made). -/
inductive EvKind where
  | folderContainer
  | fileContainer
  | linksFile
deriving Repr, DecidableEq

/-- One processing event of the traversal: the generating item's name and
parentReference, the relative path used, and which branch fired.  Events
stand for the _process_folder_container / _process_file_container /
_process_links_file calls (each of which performs the upserts). -/
structure Ev where
  item_name : String
  parentRef : Option ParentRef
  rel : String
  kind : EvKind
deriving Repr, DecidableEq

/-- The per-child loop of sharepoint_service._traverse_folder: excluded
names are skipped; every surviving item is scope-validated before any
processing or recursion and skipped on violation; folders are processed
when leaf containers and always recursed into; files are depth-checked
against the parent path and processed as links.txt or regular files. -/
def travChildren (drive_id parent_relative : String) : List GItem → List Ev
  | [] => []
  | GItem.node nm knd pref childs :: rest =>
    let it := GItem.node nm knd pref childs
    let evs :=
      if excludedHere nm then []
      else if validate_item_in_scope_raises pref drive_id then []
      else
        let item_relative := buildRelativePath it drive_id
        match knd with
        | .folder =>
          (if container_service.is_leaf_container item_relative true nm then
            [⟨nm, pref, item_relative, .folderContainer⟩]
          else []) ++ travChildren drive_id item_relative childs
        | .file =>
          if !container_service.is_leaf_container parent_relative false nm then []
          else if pyLower nm == "links.txt" then
            [⟨nm, pref, parent_relative, .linksFile⟩]
          else [⟨nm, pref, item_relative, .fileContainer⟩]
        | .other => []
    evs ++ travChildren drive_id parent_relative rest

/-- Resource key computed per URL in _process_links_file (the scheme of
import_from_folder, at its own call site). -/
def spLinkKey (parent_relative url : String) : String :=
  pyTake 16 (sha256hex (parent_relative ++ "|" ++ url ++ "|link"))

/-- Counters touched by _process_links_file. -/
structure LinksStats where
  skipped_download_fail : Nat
  skipped_no_urls : Nat
deriving Repr, DecidableEq

/-- sharepoint_service._process_links_file after its scope guard: content
is the downloaded file body (none models a falsy download result); returns
the upsert_container calls made (upsert_container forwards to the resource
upsert) and the skip counters. -/
def processLinksFileCalls (parent_relative : String) (content : Option String)
    (sync_started_at : String) : List UpsertArgs × LinksStats :=
  match content with
  | none => ([], ⟨1, 0⟩)
  | some c =>
    if c == "" then ([], ⟨1, 0⟩)
    else
      let links_data := container_service.parse_links_content c
      let urls := links_data.urls
      if urls.isEmpty then ([], ⟨0, 1⟩)
      else
        let parsed := container_service.parse_path parent_relative
        (urls.map (fun url =>
            let url_hash := pyTake 8 (sha256hex url)
            { resource_key := spLinkKey parent_relative url
              relative_path := parent_relative ++ "/links.txt#" ++ url_hash
              resource_type := "link"
              bucket := parsed.bucket
              primary_department := parsed.primary_department
              sub_department := parsed.sub_department
              training_type := parsed.training_type
              display_name := some url
              web_url := some url
              resource_count := 1
              valid_link_count := 1
              contents_count := 0
              is_placeholder := false
              source := "sharepoint"
              drive_item_id := none
              last_seen_override := some sync_started_at }),
         ⟨0, 0⟩)

end sharepoint_service

/-! ## Claim-side (specification) predicates

These definitions follow the wording of the claims, to be compared with
the code-side definitions above. -/

namespace spec

/-- Claim wording for C2: a row is archived when it was active
(is_archived = 0) and its last_seen is strictly earlier than the sync
timestamp or NULL. -/
def stale_claimed (sync_started_at : String) (r : Row) : Bool :=
  (r.is_archived == some 0) &&
    ((r.last_seen == none) ||
      (match r.last_seen with
       | none => false
       | some s => decide (s < sync_started_at)))

/-- Claim wording for C6: a scope violation is raised iff the item's
parentReference is missing or empty, or its driveId is missing (fail-closed:
falsy) or differs from the authorized drive id, or its path is missing
(fail-closed: falsy) or does not start with /drives/{id}/root: . -/
def scope_violation_claimed (pr : Option sharepoint_service.ParentRef)
    (authorized_drive_id : String) : Bool :=
  match pr with
  | none => true
  | some p =>
    !sharepoint_service.truthyS p.driveId
      || (p.driveId.getD "" != authorized_drive_id)
      || !sharepoint_service.truthyS p.path
      || !pyStarts ("/drives/" ++ authorized_drive_id ++ "/root:") (p.path.getD "").data

/-- Claim wording for C8, per line: the stripped line must be non-empty,
not start with a hash character, and be kept verbatim when it starts with
http:// or https:// or with https:// prepended when it starts with www. -/
def linkLineSpec (raw : List Char) : Option (List Char) :=
  let l := pyStrip raw
  if l.isEmpty then none
  else if container_service.pyStartsL ['#'] l then none
  else if container_service.pyStartsL "http://".data l
      || container_service.pyStartsL "https://".data l then some l
  else if container_service.pyStartsL "www.".data l then
    some ("https://".data ++ l)
  else none

end spec

/-! ## Validation of the SHA-256 implementation -/

set_option maxRecDepth 10000 in
/-- FIPS 180-4 test vector: digest of the empty message. -/
example : sha256Bytes (utf8Bytes "") =
    [0xe3, 0xb0, 0xc4, 0x42, 0x98, 0xfc, 0x1c, 0x14,
     0x9a, 0xfb, 0xf4, 0xc8, 0x99, 0x6f, 0xb9, 0x24,
     0x27, 0xae, 0x41, 0xe4, 0x64, 0x9b, 0x93, 0x4c,
     0xa4, 0x95, 0x99, 0x1b, 0x78, 0x52, 0xb8, 0x55] := by decide

/-! ## Shared helper lemmas -/

/-- The single-row UPDATE does not change the primary key. -/
theorem singleUpdateRow_key (a : UpsertArgs) (now : String) (r : Row) :
    (singleUpdateRow a now r).resource_key = r.resource_key := rfl

/-- The single-row UPDATE is idempotent on a row. -/
theorem singleUpdateRow_idem (a : UpsertArgs) (now : String) (r : Row) :
    singleUpdateRow a now (singleUpdateRow a now r) = singleUpdateRow a now r := rfl

/-- Updating a row just inserted from the same arguments changes nothing. -/
theorem singleUpdateRow_insertRow (a : UpsertArgs) (now : String) :
    singleUpdateRow a now (insertRow a now) = insertRow a now := rfl

/-- The row mapping of the archive UPDATE, expressed on one row. -/
theorem archive_unfold (sync_started_at : String) (db : List Row) :
    archive_stale_resources sync_started_at db =
      (db.map (archiveRowUpdate sync_started_at),
       db.countP (staleRow sync_started_at)) := by
  induction db with
  | nil => rfl
  | cons r db ih =>
    simp only [archive_stale_resources] at ih ⊢
    by_cases h : staleRow sync_started_at r <;>
      simp [List.foldr_cons, ih, h, archiveRowUpdate, List.countP_cons]

/-- The code-side WHERE predicate of the archive UPDATE coincides with the
claim wording. -/
theorem staleRow_eq_claimed (ts : String) (r : Row) :
    staleRow ts r = spec.stale_claimed ts r := by
  simp only [staleRow, spec.stale_claimed]
  cases r.last_seen <;> simp

/-! ## Concrete sample data for witnesses -/

/-- A concrete resource row carrying non-default user decisions. -/
def rowW : Row :=
  { resource_key := "k1"
    drive_item_id := none
    relative_path := "HR/_General/01_Onboarding/03_Self Directed/old.pdf"
    bucket := some "onboarding"
    primary_department := some "HR"
    sub_department := some "_General"
    training_type := some "self_directed"
    resource_type := "file"
    display_name := some "old.pdf"
    web_url := none
    resource_count := some 1
    valid_link_count := some 0
    contents_count := some 0
    is_placeholder := some 0
    scrub_status := some "Include"
    scrub_notes := some "keep this"
    scrub_owner := some "ana"
    scrub_updated := some "2024-03-01T00:00:00+00:00"
    invest_decision := some "Fund"
    invest_owner := some "bo"
    invest_effort := some "M"
    invest_notes := some "refresh"
    invest_updated := some "2024-03-02T00:00:00+00:00"
    first_seen := some "2024-01-01T00:00:00+00:00"
    last_seen := some "2024-05-01T00:00:00+00:00"
    source := some "zip"
    is_archived := some 0
    audience := some "internal"
    approved_for_investment := some 1
    scrub_reasons := some "quality"
    sales_stage := some "live"}

/-- Concrete single-row upsert arguments addressing rowW's key. -/
def argsW : UpsertArgs :=
  { resource_key := "k1"
    relative_path := "HR/_General/01_Onboarding/03_Self Directed/new.pdf"
    resource_type := "file"
    bucket := some "onboarding"
    primary_department := some "HR"
    sub_department := some "_General"
    training_type := some "self_directed"
    display_name := some "new.pdf"
    web_url := none
    resource_count := 1
    valid_link_count := 0
    contents_count := 0
    is_placeholder := false
    source := "folder"
    drive_item_id := none
    last_seen_override := some "2024-06-01T00:00:00+00:00"}

/-- Concrete batch tuple addressing rowW's key. -/
def batchW : BatchRow :=
  { resource_key := some "k1"
    drive_item_id := none
    relative_path := some "HR/_General/01_Onboarding/03_Self Directed/new.pdf"
    bucket := some "onboarding"
    primary_department := some "HR"
    sub_department := some "_General"
    training_type := some "self_directed"
    resource_type := some "file"
    display_name := some "new.pdf"
    web_url := none
    resource_count := some 1
    valid_link_count := some 0
    contents_count := some 0
    is_placeholder := some 0
    first_seen := some "2024-06-01T00:00:00+00:00"
    last_seen := some "2024-06-01T00:00:00+00:00"
    source := some "folder"
    is_archived := some 0}

/-! ## C1 : re-sync never overwrites user-entered decisions -/

/-- C1.  For a row already present, the single-row upsert
(upsert_resource) and the batch ON CONFLICT update assign exactly the
metadata columns and force is_archived = 0, while the user-decision
fields (scrub_*, invest_*, audience, approved_for_investment,
sales_stage) as well as resource_key, resource_type and first_seen are
left unchanged; on a present key both operations reduce to mapping the
respective per-row UPDATE over the matching rows. -/
theorem C1_resync_preserves_user_decisions :
    ∀ (a : UpsertArgs) (t : String) (b : BatchRow) (r : Row) (db : List Row),
      (rowUser (singleUpdateRow a (pyOrS a.last_seen_override t) r) = rowUser r
        ∧ (singleUpdateRow a (pyOrS a.last_seen_override t) r).resource_key = r.resource_key
        ∧ (singleUpdateRow a (pyOrS a.last_seen_override t) r).resource_type = r.resource_type
        ∧ (singleUpdateRow a (pyOrS a.last_seen_override t) r).first_seen = r.first_seen
        ∧ (singleUpdateRow a (pyOrS a.last_seen_override t) r).is_archived = some 0
        ∧ rowMeta (singleUpdateRow a (pyOrS a.last_seen_override t) r) =
            ⟨a.relative_path, a.bucket, a.primary_department, a.sub_department,
             a.training_type, a.display_name, a.web_url, some a.resource_count,
             some a.valid_link_count, some a.contents_count,
             some (if a.is_placeholder then 1 else 0),
             some (pyOrS a.last_seen_override t), some a.source, a.drive_item_id⟩)
      ∧ (rowUser (conflictUpdateRow b r) = rowUser r
        ∧ (conflictUpdateRow b r).resource_key = r.resource_key
        ∧ (conflictUpdateRow b r).resource_type = r.resource_type
        ∧ (conflictUpdateRow b r).first_seen = r.first_seen
        ∧ (conflictUpdateRow b r).is_archived = some 0
        ∧ rowMeta (conflictUpdateRow b r) =
            ⟨b.relative_path.getD "", b.bucket, b.primary_department, b.sub_department,
             b.training_type, b.display_name, b.web_url, b.resource_count,
             b.valid_link_count, b.contents_count, b.is_placeholder,
             b.last_seen, b.source, b.drive_item_id⟩)
      ∧ (db.any (fun x => x.resource_key == a.resource_key) = true →
          upsert_resource a t db =
            (db.map (fun x => if x.resource_key == a.resource_key
                then singleUpdateRow a (pyOrS a.last_seen_override t) x else x), false))
      ∧ (db.any (fun x => x.resource_key == b.resource_key.getD "") = true →
          conflictApply b db =
            db.map (fun x => if x.resource_key == b.resource_key.getD ""
                then conflictUpdateRow b x else x)) := by
  intro a t b r db
  refine ⟨⟨rfl, rfl, rfl, rfl, rfl, rfl⟩, ⟨rfl, rfl, rfl, rfl, rfl, rfl⟩, ?_, ?_⟩
  · intro h
    simp [upsert_resource, h]
  · intro h
    simp [conflictApply, h]

/-- Witness for C1 at concrete data: the key is present, and both update
paths take the mapped form. -/
theorem C1_witness :
    [rowW].any (fun x => x.resource_key == argsW.resource_key) = true
    ∧ upsert_resource argsW "2024-06-02T00:00:00+00:00" [rowW] =
        ([rowW].map (fun x => if x.resource_key == argsW.resource_key
            then singleUpdateRow argsW
              (pyOrS argsW.last_seen_override "2024-06-02T00:00:00+00:00") x else x),
         false)
    ∧ conflictApply batchW [rowW] =
        [rowW].map (fun x => if x.resource_key == batchW.resource_key.getD ""
            then conflictUpdateRow batchW x else x) :=
  ⟨by decide,
   (C1_resync_preserves_user_decisions argsW "2024-06-02T00:00:00+00:00" batchW rowW
      [rowW]).2.2.1 (by decide),
   (C1_resync_preserves_user_decisions argsW "2024-06-02T00:00:00+00:00" batchW rowW
      [rowW]).2.2.2 (by decide)⟩

/-! ## C2 : stale-archival reconciliation -/

/-- C2.  archive_stale_resources flips is_archived to 1 on exactly the
active rows whose last_seen is strictly earlier than the sync timestamp
or NULL, returns the number of such rows, and any row stamped with
last_seen = sync_started_at is left untouched (hence stays active). -/
theorem C2_archive_stale_reconciliation :
    ∀ (sync_started_at : String) (db : List Row),
      (archive_stale_resources sync_started_at db).1 =
        db.map (fun r => if spec.stale_claimed sync_started_at r
          then { r with is_archived := some 1 } else r)
      ∧ (archive_stale_resources sync_started_at db).2 =
        db.countP (spec.stale_claimed sync_started_at)
      ∧ ∀ r : Row, r.last_seen = some sync_started_at →
          (if spec.stale_claimed sync_started_at r
           then { r with is_archived := some 1 } else r) = r := by
  intro ts db
  have hp : staleRow ts = spec.stale_claimed ts := funext (staleRow_eq_claimed ts)
  refine ⟨?_, ?_, ?_⟩
  · rw [archive_unfold]
    dsimp only
    apply List.map_congr_left
    intro r _
    simp only [archiveRowUpdate, staleRow_eq_claimed]
  · rw [archive_unfold, ← hp]
  · intro r h
    have hc : spec.stale_claimed ts r = false := by
      simp [spec.stale_claimed, h, lt_irrefl]
    rw [hc]
    simp

/-- Witness for C2 at concrete data: a row stamped by the current sync is
left unchanged, and the archive pass takes the mapped form. -/
theorem C2_witness :
    (if spec.stale_claimed "2024-06-01T00:00:00+00:00"
        { rowW with last_seen := some "2024-06-01T00:00:00+00:00" }
     then { { rowW with last_seen := some "2024-06-01T00:00:00+00:00" } with
              is_archived := some 1 }
     else { rowW with last_seen := some "2024-06-01T00:00:00+00:00" }) =
      { rowW with last_seen := some "2024-06-01T00:00:00+00:00" } ∧
    (archive_stale_resources "2024-06-01T00:00:00+00:00" [rowW]).2 =
      [rowW].countP (spec.stale_claimed "2024-06-01T00:00:00+00:00") :=
  ⟨(C2_archive_stale_reconciliation "2024-06-01T00:00:00+00:00" []).2.2
      { rowW with last_seen := some "2024-06-01T00:00:00+00:00" } rfl,
   (C2_archive_stale_reconciliation "2024-06-01T00:00:00+00:00" [rowW]).2.1⟩

/-! ## C3 : idempotent upsert -/

/-- C3.  With all arguments fixed (including last_seen_override, standing
in for a fixed wall clock), running upsert_resource twice leaves the table
exactly as one run does and the second run returns False; on a previously
absent key the first run appends the inserted row and returns True. -/
theorem C3_upsert_idempotent :
    ∀ (a : UpsertArgs) (t : String) (db : List Row),
      upsert_resource a t (upsert_resource a t db).1 =
        ((upsert_resource a t db).1, false)
      ∧ (db.any (fun x => x.resource_key == a.resource_key) = false →
          upsert_resource a t db =
            (db ++ [insertRow a (pyOrS a.last_seen_override t)], true)) := by
  intro a t db
  constructor
  · cases h : db.any (fun x => x.resource_key == a.resource_key) with
    | true =>
      have h1 : upsert_resource a t db =
          (db.map (fun x => if x.resource_key == a.resource_key
            then singleUpdateRow a (pyOrS a.last_seen_override t) x else x), false) := by
        simp [upsert_resource, h]
      rw [h1]
      obtain ⟨r, hr, hpr⟩ := List.any_eq_true.mp h
      have h2 : (db.map (fun x => if x.resource_key == a.resource_key
          then singleUpdateRow a (pyOrS a.last_seen_override t) x else x)).any
            (fun x => x.resource_key == a.resource_key) = true := by
        refine List.any_eq_true.mpr ⟨_, List.mem_map_of_mem _ hr, ?_⟩
        cases hk : r.resource_key == a.resource_key with
        | true => simp [hk, singleUpdateRow_key]
        | false => simp [hk] at hpr
      simp only [upsert_resource, h2, if_true]
      rw [List.map_map]
      congr 1
      apply List.map_congr_left
      intro x _
      cases hk : x.resource_key == a.resource_key with
      | true =>
        simp only [Function.comp_apply, hk, if_true, singleUpdateRow_key,
          singleUpdateRow_idem]
      | false =>
        simp only [Function.comp_apply, hk, Bool.false_eq_true, if_false]
    | false =>
      have h1 : upsert_resource a t db =
          (db ++ [insertRow a (pyOrS a.last_seen_override t)], true) := by
        simp [upsert_resource, h]
      rw [h1]
      have h2 : (db ++ [insertRow a (pyOrS a.last_seen_override t)]).any
          (fun x => x.resource_key == a.resource_key) = true := by
        refine List.any_eq_true.mpr ⟨insertRow a (pyOrS a.last_seen_override t), ?_, ?_⟩
        · simp
        · show ((insertRow a (pyOrS a.last_seen_override t)).resource_key ==
            a.resource_key) = true
          simp [insertRow]
      simp only [upsert_resource, h2, if_true]
      congr 1
      rw [List.map_append]
      have h3 : db.map (fun x => if x.resource_key == a.resource_key
          then singleUpdateRow a (pyOrS a.last_seen_override t) x else x) = db := by
        conv_rhs => rw [← List.map_id db]
        apply List.map_congr_left
        intro x hx
        have hk : (x.resource_key == a.resource_key) = false := by
          have := List.any_eq_false.mp h
          simpa using this x hx
        simp [hk]
      rw [h3]
      simp [singleUpdateRow_insertRow]
  · intro h
    simp [upsert_resource, h]

/-- Witness for C3 at concrete data: an absent key is inserted with
return value True, and the repeated call is the identity with return
value False. -/
theorem C3_witness :
    ([] : List Row).any (fun x => x.resource_key == argsW.resource_key) = false
    ∧ upsert_resource argsW "2024-06-02T00:00:00+00:00" [] =
        ([] ++ [insertRow argsW (pyOrS argsW.last_seen_override "2024-06-02T00:00:00+00:00")],
         true)
    ∧ upsert_resource argsW "2024-06-02T00:00:00+00:00"
        (upsert_resource argsW "2024-06-02T00:00:00+00:00" []).1 =
        ((upsert_resource argsW "2024-06-02T00:00:00+00:00" []).1, false) :=
  ⟨by decide,
   (C3_upsert_idempotent argsW "2024-06-02T00:00:00+00:00" []).2 (by decide),
   (C3_upsert_idempotent argsW "2024-06-02T00:00:00+00:00" []).1⟩

/-! ## C7 : transactional batch writes are atomic -/

/-- C7.  Phase 2 of import_from_folder runs batch_upsert_resources then
archive_stale_resources inside one transaction: on success the composed
new state is committed exactly once; if the batch raises, the table is
returned unchanged with zero commits.  The batch raises exactly when the
input is non-empty and some row misses a required key. -/
theorem C7_transactional_batch_atomicity :
    ∀ (rows : List BatchRow) (sync_started_at : String) (db : List Row),
      importPhase2 rows sync_started_at db =
        (match batch_upsert_resources rows db with
         | .error e => (db, .error e, 0)
         | .ok (s1, n) =>
           ((archive_stale_resources sync_started_at s1).1,
            .ok (n, (archive_stale_resources sync_started_at s1).2), 1))
      ∧ exceptOk (batch_upsert_resources rows db) =
          (rows.isEmpty || !rows.any missingRequired) := by
  intro rows ts db
  constructor
  · unfold importPhase2 transactionRun
    cases hb : batch_upsert_resources rows db with
    | error e => simp [hb]
    | ok p => cases p; simp [hb]
  · unfold batch_upsert_resources exceptOk
    by_cases he : rows.isEmpty <;> by_cases hm : rows.any missingRequired <;>
      simp [he, hm]

/-! ## C9 : the two OS-artifact denylists differ -/

/-- C9 evaluation at the failing input: instructions.txt is excluded by
container_service (ZIP and folder import) but not by sharepoint_service,
although the latter's comment says the sets match. -/
theorem C9_excluded_denylists_diverge :
    container_service.excludedHere "instructions.txt" = true
    ∧ sharepoint_service.excludedHere "instructions.txt" = false := by decide

/-! ## C4 : content-addressed keys across ingestion sources -/

/-- Hex encoding doubles the byte count. -/
theorem bytesToHex_length (l : List Nat) : (bytesToHex l).length = 2 * l.length := by
  induction l with
  | nil => rfl
  | cons b l ih => simp only [bytesToHex, List.flatMap_cons] at ih ⊢; simp [ih]; omega

/-- A SHA-256 digest has 32 bytes. -/
theorem sha256Bytes_length (m : List Nat) : (sha256Bytes m).length = 32 := by
  simp [sha256Bytes, bytes4]

/-- A SHA-256 hexdigest has 64 characters. -/
theorem sha256hex_length (s : String) : (sha256hex s).length = 64 := by
  show (bytesToHex (sha256Bytes (utf8Bytes s))).length = 64
  rw [bytesToHex_length, sha256Bytes_length]

/-- Python slicing keeps min n len characters. -/
theorem pyTake_length (n : Nat) (s : String) :
    (pyTake n s).length = min n s.length := by
  show (s.data.take n).length = min n s.data.length
  exact List.length_take n s.data

/-- Keys of the folder-import link scheme have 16 hex characters. -/
theorem folderLinkKey_length (p u : String) :
    (container_service.folderLinkKey p u).length = 16 := by
  rw [container_service.folderLinkKey, pyTake_length, sha256hex_length]; decide

/-- Keys of the ZIP-import link scheme have 32 hex characters. -/
theorem zipLinkKey_length (p u : String) :
    (container_service.zipLinkKey p u).length = 32 := by
  show (pyTake 32 (sha256hex _)).length = 32
  rw [pyTake_length, sha256hex_length]; decide

/-- C4, amended.  The folder-import and SharePoint link key schemes
coincide (both hash parent, url and the type tag and keep 16 hex chars),
but the ZIP-import link key (make_resource_key over the derived
links.txt#hash8 path, 32 hex chars) never equals them, so re-ingesting
the same tree via ZIP does not address the same link rows. -/
theorem C4_link_key_schemes :
    ∀ (parent_path url : String),
      sharepoint_service.spLinkKey parent_path url =
        container_service.folderLinkKey parent_path url
      ∧ container_service.zipLinkKey parent_path url ≠
        container_service.folderLinkKey parent_path url := by
  intro p u
  refine ⟨rfl, ?_⟩
  intro h
  have h1 := congrArg String.length h
  rw [zipLinkKey_length, folderLinkKey_length] at h1
  exact absurd h1 (by decide)

/-- Counterexample to C4 as stated: at a concrete links.txt URL under a
concrete parent path, the key computed by the ZIP import differs from the
key computed by the folder import / SharePoint sync. -/
theorem C4_counterexample :
    container_service.zipLinkKey "HR/_General/01_Onboarding/03_Self Directed"
        "https://example.com/a" ≠
      container_service.folderLinkKey "HR/_General/01_Onboarding/03_Self Directed"
        "https://example.com/a" := by
  intro h
  have h1 := congrArg String.length h
  rw [zipLinkKey_length, folderLinkKey_length] at h1
  exact absurd h1 (by decide)

/-! ## C5 : depth-rule leaf classification -/

set_option maxRecDepth 4000 in
/-- C5 evaluation at the failing input: a file whose parent path has
depth 5 (one extra level below the training-type folder) is classified as
a leaf container by the code (current_depth >= 4), although the
function's own rules say files are leaf containers only directly under
L3 and items nested under L4 are not. -/
theorem C5_file_depth_rule_divergence :
    container_service.is_leaf_container
        "HR/_General/01_Onboarding/03_Self Directed/Extra" false "deep.pdf" = true
    ∧ (container_service.parse_path
        "HR/_General/01_Onboarding/03_Self Directed/Extra").depth = 5 := by decide

/-! ## C10 : link-row invariant -/

/-- C10.  Every link row emitted by the links.txt branches of
import_from_zip, import_from_folder and _process_links_file carries
resource_count = 1, valid_link_count = 1 and is_placeholder = 0; content
with zero valid URLs emits no rows and bumps the skip counter instead
(and a failed download emits no rows either), so no placeholder link rows
reach the database. -/
theorem C10_link_rows_invariant :
    ∀ (parent_path content sync_started_at : String),
      ((container_service.zipLinksUpserts parent_path content).1.all
        (fun a => a.resource_type == "link" && a.resource_count == 1 &&
                  a.valid_link_count == 1 && !a.is_placeholder)) = true
      ∧ ((container_service.folderLinksRows parent_path content sync_started_at).1.all
        (fun b => b.resource_type == some "link" && b.resource_count == some 1 &&
                  b.valid_link_count == some 1 && b.is_placeholder == some 0)) = true
      ∧ ((sharepoint_service.processLinksFileCalls parent_path (some content)
            sync_started_at).1.all
        (fun a => a.resource_type == "link" && a.resource_count == 1 &&
                  a.valid_link_count == 1 && !a.is_placeholder)) = true
      ∧ ((container_service.parse_links_content content).urls = [] →
          container_service.zipLinksUpserts parent_path content = ([], 1)
          ∧ container_service.folderLinksRows parent_path content sync_started_at
              = ([], 1)
          ∧ (content ≠ "" →
              sharepoint_service.processLinksFileCalls parent_path (some content)
                sync_started_at = ([], ⟨0, 1⟩)))
      ∧ sharepoint_service.processLinksFileCalls parent_path none sync_started_at
          = ([], ⟨1, 0⟩) := by
  intro p c t
  refine ⟨?_, ?_, ?_, ?_, rfl⟩
  · simp [container_service.zipLinksUpserts, List.all_map, Function.comp]
  · simp [container_service.folderLinksRows, List.all_map, Function.comp]
  · unfold sharepoint_service.processLinksFileCalls
    by_cases hc : c == ""
    · simp [hc]
    · simp only [hc, Bool.false_eq_true, if_false]
      by_cases hu : (container_service.parse_links_content c).urls.isEmpty
      · simp [hu]
      · simp [hu, List.all_map, Function.comp]
  · intro h
    refine ⟨?_, ?_, ?_⟩
    · simp [container_service.zipLinksUpserts, h]
    · simp [container_service.folderLinksRows, h]
    · intro hc
      have hc2 : (c == "") = false := by simp [hc]
      simp [sharepoint_service.processLinksFileCalls, hc2, h]

/-- Witness for C10 at concrete data: a links.txt holding only a comment
line yields zero rows and one skip on every ingestion path. -/
theorem C10_witness :
    container_service.zipLinksUpserts "HR/_General/01_Onboarding/05_Job Aids"
        "# no links yet\n" = ([], 1)
    ∧ container_service.folderLinksRows "HR/_General/01_Onboarding/05_Job Aids"
        "# no links yet\n" "2024-06-01T00:00:00+00:00" = ([], 1)
    ∧ sharepoint_service.processLinksFileCalls "HR/_General/01_Onboarding/05_Job Aids"
        (some "# no links yet\n") "2024-06-01T00:00:00+00:00" = ([], ⟨0, 1⟩) := by
  have h := (C10_link_rows_invariant "HR/_General/01_Onboarding/05_Job Aids"
    "# no links yet\n" "2024-06-01T00:00:00+00:00").2.2.2.1 (by decide)
  exact ⟨h.1, h.2.1, h.2.2 (by decide)⟩

/-! ## C6 : scope-validation guard -/

open sharepoint_service in
/-- Every event emitted by the traversal comes from an item that passed
scope validation (proved by strong induction on the item forest size). -/
theorem trav_all_valid (d : String) : ∀ (n : Nat) (r : String) (l : List GItem),
    sizeOf l ≤ n →
    (travChildren d r l).all
      (fun e => !validate_item_in_scope_raises e.parentRef d) = true := by
  intro n
  induction n with
  | zero =>
    intro r l hl
    cases l with
    | nil => simp [travChildren]
    | cons a t => simp [List.cons.sizeOf_spec] at hl
  | succ n ih =>
    intro r l hl
    cases l with
    | nil => simp [travChildren]
    | cons it rest =>
      cases it with
      | node nm knd pref childs =>
        have hszr : sizeOf rest ≤ n := by
          simp [List.cons.sizeOf_spec, GItem.node.sizeOf_spec] at hl; omega
        have hszc : sizeOf childs ≤ n := by
          simp [List.cons.sizeOf_spec, GItem.node.sizeOf_spec] at hl; omega
        have hrest := ih r rest hszr
        rw [travChildren, List.all_append, hrest, Bool.and_true]
        by_cases h1 : excludedHere nm
        · simp [h1]
        · by_cases h2 : validate_item_in_scope_raises pref d
          · simp [h1, h2]
          · cases knd with
            | folder =>
              have hchild := ih
                (buildRelativePath (GItem.node nm GKind.folder pref childs) d)
                childs hszc
              by_cases h3 : container_service.is_leaf_container
                  (buildRelativePath (GItem.node nm GKind.folder pref childs) d)
                  true nm <;>
              · simp [h1, h2, h3, List.all_append]
                intro x hx
                have hx2 := List.all_eq_true.mp hchild x hx
                simpa using hx2
            | file =>
              by_cases h3 : container_service.is_leaf_container r false nm
              · by_cases h4 : pyLower nm == "links.txt" <;> simp [h1, h2, h3, h4]
              · simp [h1, h2, h3]
            | other => simp [h1, h2]

/-- C6.  validate_item_in_scope raises exactly under the claimed
fail-closed condition; during traversal every emitted processing event
stems from an item that passed validation, and an item failing validation
is skipped outright: the traversal of a list starting with it equals the
traversal without it (no recursion, no processing, no upsert). -/
theorem C6_scope_validation_guard :
    (∀ (pr : Option sharepoint_service.ParentRef) (drive : String),
      sharepoint_service.validate_item_in_scope_raises pr drive =
        spec.scope_violation_claimed pr drive)
    ∧ (∀ (drive rel : String) (items : List sharepoint_service.GItem),
        (sharepoint_service.travChildren drive rel items).all
          (fun e => !sharepoint_service.validate_item_in_scope_raises e.parentRef drive)
          = true)
    ∧ (∀ (drive rel nm : String) (knd : sharepoint_service.GKind)
        (pref : Option sharepoint_service.ParentRef)
        (childs rest : List sharepoint_service.GItem),
        sharepoint_service.validate_item_in_scope_raises pref drive = true →
        sharepoint_service.travChildren drive rel
            (sharepoint_service.GItem.node nm knd pref childs :: rest) =
          sharepoint_service.travChildren drive rel rest) := by
  refine ⟨?_, ?_, ?_⟩
  · intro pr drive
    cases pr with
    | none => rfl
    | some p =>
      simp only [sharepoint_service.validate_item_in_scope_raises,
        spec.scope_violation_claimed]
      by_cases h1 : sharepoint_service.truthyS p.driveId <;>
        by_cases h2 : p.driveId.getD "" == drive <;>
          by_cases h3 : sharepoint_service.truthyS p.path <;>
            simp [h1, h2, h3, bne]
  · intro drive rel items
    exact trav_all_valid drive (sizeOf items) rel items le_rfl
  · intro drive rel nm knd pref childs rest h
    rw [sharepoint_service.travChildren]
    by_cases h1 : sharepoint_service.excludedHere nm <;> simp [h1, h]

/-- Witness for C6 at concrete data: an item whose parentReference points
at a different drive is dropped from the traversal. -/
theorem C6_witness :
    sharepoint_service.validate_item_in_scope_raises
        (some ⟨some "driveB", some "/drives/driveB/root:/HR"⟩) "driveA" = true
    ∧ sharepoint_service.travChildren "driveA" ""
        [sharepoint_service.GItem.node "evil.pdf" .file
          (some ⟨some "driveB", some "/drives/driveB/root:/HR"⟩) []] =
      sharepoint_service.travChildren "driveA" "" [] :=
  ⟨by decide,
   C6_scope_validation_guard.2.2 "driveA" "" "evil.pdf" .file
     (some ⟨some "driveB", some "/drives/driveB/root:/HR"⟩) [] [] (by decide)⟩

/-! ## C8 : links.txt expansion

The per-line loop of parse_links_content is a filterMap of the claimed
per-line classification, and stripping the whole content before splitting
(as the code does) never changes the classified lines, so the
characterization holds over the lines of the raw input. -/

/-- filterMap over a cons, phrased with Option.toList. -/
theorem filterMap_cons_toList (f : α → Option β) (a : α) (l : List α) :
    (a :: l).filterMap f = (f a).toList ++ l.filterMap f := by
  cases h : f a <;> simp [List.filterMap_cons, h]

/-- The classifier of the empty line is none. -/
theorem linkLineSpec_nil : spec.linkLineSpec [] = none := rfl

/-- Dropping one leading Python-whitespace character does not change a
stripped string. -/
theorem pyStrip_cons_space (c : Char) (l : List Char) (hc : pySpace c = true) :
    pyStrip (c :: l) = pyStrip l := by
  simp only [pyStrip, rstrip]
  cases hr : (rstrip l).isEmpty with
  | true =>
    have h0 : rstrip l = [] := by
      cases h : rstrip l
      · rfl
      · rw [h] at hr; simp at hr
    simp [hc, h0, lstrip]
  | false => simp [hr, hc, lstrip, List.dropWhile_cons]

/-- The per-line classifier ignores leading whitespace. -/
theorem linkLineSpec_cons_space (c : Char) (l : List Char)
    (hc : pySpace c = true) :
    spec.linkLineSpec (c :: l) = spec.linkLineSpec l := by
  simp only [spec.linkLineSpec, pyStrip_cons_space c l hc]

/-- The per-line classifier factors through rstrip. -/
theorem linkLineSpec_congr_rstrip (x y : List Char) (h : rstrip x = rstrip y) :
    spec.linkLineSpec x = spec.linkLineSpec y := by
  simp only [spec.linkLineSpec, pyStrip, h]

/-- Consing the same character onto lists with equal rstrip yields lists
with equal rstrip. -/
theorem rstrip_cons_congr (c : Char) (x y : List Char) (h : rstrip x = rstrip y) :
    rstrip (c :: x) = rstrip (c :: y) := by
  simp only [rstrip, h]

/-- The per-line loop is the filterMap of the claimed classifier. -/
theorem processLinkLines_eq_filterMap (l : List (List Char)) :
    container_service.processLinkLines l = l.filterMap spec.linkLineSpec := by
  induction l with
  | nil => rfl
  | cons raw rest ih =>
    rw [container_service.processLinkLines, filterMap_cons_toList, ← ih]
    by_cases hE : (pyStrip raw).isEmpty ||
        container_service.pyStartsL ['#'] (pyStrip raw)
    · cases hE1 : (pyStrip raw).isEmpty with
      | true => simp [spec.linkLineSpec, hE1]
      | false =>
        rw [hE1] at hE
        simp only [Bool.false_or] at hE
        simp [spec.linkLineSpec, hE1, hE]
    · have hE1 : (pyStrip raw).isEmpty = false := by
        cases h : (pyStrip raw).isEmpty
        · rfl
        · exact absurd (by simp [h]) hE
      have hE2 : container_service.pyStartsL ['#'] (pyStrip raw) = false := by
        cases h : container_service.pyStartsL ['#'] (pyStrip raw)
        · rfl
        · exact absurd (by simp [h]) hE
      by_cases hW : container_service.pyStartsL "www.".data (pyStrip raw)
      · have hH : container_service.pyStartsL "http://".data (pyStrip raw) = false
            ∧ container_service.pyStartsL "https://".data (pyStrip raw) = false := by
          cases hd : pyStrip raw with
          | nil => rw [hd] at hW; simp [container_service.pyStartsL] at hW
          | cons a t =>
            rw [hd] at hW
            have ha : a = 'w' := by
              simp [container_service.pyStartsL, List.isPrefixOf] at hW
              exact hW.1.symm
            subst ha
            simp [container_service.pyStartsL, List.isPrefixOf]
        simp [hE1, hE2, hW, hH.1, hH.2, spec.linkLineSpec]
      · by_cases hH : container_service.pyStartsL "http://".data (pyStrip raw)
            || container_service.pyStartsL "https://".data (pyStrip raw)
        · simp [hE1, hE2, hW, hH, spec.linkLineSpec]
        · simp [hE1, hE2, hW, hH, spec.linkLineSpec]

/-- Left-stripping the content does not change the classified lines. -/
theorem filterMap_splitLines_lstrip (l : List Char) :
    (splitLines (lstrip l)).filterMap spec.linkLineSpec
      = (splitLines l).filterMap spec.linkLineSpec := by
  induction l with
  | nil => rfl
  | cons c l ih =>
    by_cases hc : pySpace c
    · have hl : lstrip (c :: l) = lstrip l := by
        simp [lstrip, List.dropWhile_cons, hc]
      rw [hl, ih]
      cases hcn : c == '\n' with
      | true =>
        have hc2 : c = '\n' := by simpa using hcn
        subst hc2
        simp [splitLines, splitLinesP, filterMap_cons_toList, linkLineSpec_nil]
      | false =>
        simp only [splitLines, splitLinesP, hcn, Bool.false_eq_true, if_false,
          filterMap_cons_toList]
        rw [linkLineSpec_cons_space c _ hc]
    · have hl : lstrip (c :: l) = c :: l := by
        simp [lstrip, List.dropWhile_cons, hc]
      rw [hl]

/-- Right-stripping interacts with line splitting: the first line keeps
its rstrip and the remaining lines keep their classification. -/
theorem rstrip_splitLines_inv (l : List Char) :
    rstrip ((splitLinesP (rstrip l)).1) = rstrip ((splitLinesP l).1)
    ∧ ((splitLinesP (rstrip l)).2).filterMap spec.linkLineSpec
      = ((splitLinesP l).2).filterMap spec.linkLineSpec := by
  induction l with
  | nil => exact ⟨rfl, rfl⟩
  | cons c l ih =>
    by_cases hr : (rstrip l).isEmpty
    · have h0 : rstrip l = [] := by
        cases h : rstrip l
        · rfl
        · rw [h] at hr; simp at hr
      rw [h0] at ih
      have ih1 : rstrip ((splitLinesP l).1) = [] := by
        have := ih.1
        simpa [splitLinesP] using this.symm
      have ih2 : ((splitLinesP l).2).filterMap spec.linkLineSpec = [] := by
        have := ih.2
        simpa [splitLinesP] using this.symm
      by_cases hc : pySpace c
      · have hstep : rstrip (c :: l) = [] := by
          simp only [rstrip, h0]
          simp [hc]
        rw [hstep]
        cases hcn : c == '\n' with
        | true =>
          have hc2 : c = '\n' := by simpa using hcn
          subst hc2
          refine ⟨rfl, ?_⟩
          simp only [splitLinesP, beq_self_eq_true, if_true, filterMap_cons_toList]
          have hs : spec.linkLineSpec ((splitLinesP l).1) = none := by
            rw [linkLineSpec_congr_rstrip _ [] (by simp [ih1, rstrip]),
              linkLineSpec_nil]
          simp [hs, ih2]
        | false =>
          constructor
          · simp only [splitLinesP, hcn, Bool.false_eq_true, if_false]
            rw [rstrip_cons_congr c ((splitLinesP l).1) [] (by simp [ih1, rstrip])]
            simp [rstrip, hc]
          · simp only [splitLinesP, hcn, Bool.false_eq_true, if_false]
            simpa using ih2
      · have hcn : (c == '\n') = false := by
          cases h : c == '\n'
          · rfl
          · have : c = '\n' := by simpa using h
            subst this
            simp [pySpace] at hc
        have hstep : rstrip (c :: l) = [c] := by
          simp only [rstrip, h0]
          simp [hc]
        rw [hstep]
        constructor
        · simp only [splitLinesP, hcn, Bool.false_eq_true, if_false]
          rw [rstrip_cons_congr c ((splitLinesP l).1) [] (by simp [ih1, rstrip])]
        · simp only [splitLinesP, hcn, Bool.false_eq_true, if_false]
          simpa using ih2
    · have h1 : rstrip (c :: l) = c :: rstrip l := by
        simp only [rstrip]
        simp [hr]
      rw [h1]
      cases hcn : c == '\n' with
      | true =>
        refine ⟨by simp [splitLinesP, hcn], ?_⟩
        simp only [splitLinesP, hcn, if_true, filterMap_cons_toList]
        rw [linkLineSpec_congr_rstrip _ _ ih.1, ih.2]
      | false =>
        refine ⟨?_, ?_⟩
        · simp only [splitLinesP, hcn, Bool.false_eq_true, if_false]
          exact rstrip_cons_congr c _ _ ih.1
        · simp only [splitLinesP, hcn, Bool.false_eq_true, if_false]
          exact ih.2

/-- Stripping the whole content before splitting, as the code does, never
changes the classified lines. -/
theorem filterMap_splitLines_pyStrip (l : List Char) :
    (splitLines (pyStrip l)).filterMap spec.linkLineSpec
      = (splitLines l).filterMap spec.linkLineSpec := by
  have h1 := filterMap_splitLines_lstrip (rstrip l)
  have h2 := rstrip_splitLines_inv l
  calc (splitLines (pyStrip l)).filterMap spec.linkLineSpec
      = (splitLines (rstrip l)).filterMap spec.linkLineSpec := h1
    _ = (splitLines l).filterMap spec.linkLineSpec := by
        simp only [splitLines, filterMap_cons_toList]
        rw [linkLineSpec_congr_rstrip _ _ h2.1, h2.2]

/-- C8.  parse_links_content returns as urls exactly the classified lines
of the input, in input-line order; both counters equal their number, and
is_placeholder holds exactly when it is zero. -/
theorem C8_links_expansion :
    ∀ (content : String),
      (container_service.parse_links_content content).urls =
        ((splitLines content.data).filterMap spec.linkLineSpec).map String.mk
      ∧ (container_service.parse_links_content content).valid_link_count =
        ((splitLines content.data).filterMap spec.linkLineSpec).length
      ∧ (container_service.parse_links_content content).resource_count =
        ((splitLines content.data).filterMap spec.linkLineSpec).length
      ∧ ((container_service.parse_links_content content).is_placeholder = true ↔
        (splitLines content.data).filterMap spec.linkLineSpec = []) := by
  intro c
  have hurls : container_service.processLinkLines
      (if c == "" then [] else splitLines (pyStrip c.data))
      = (splitLines c.data).filterMap spec.linkLineSpec := by
    cases hc : c == "" with
    | true =>
      have hce : c = "" := by simpa using hc
      subst hce
      rfl
    | false =>
      simp only [hc, Bool.false_eq_true, if_false]
      rw [processLinkLines_eq_filterMap, filterMap_splitLines_pyStrip]
  simp only [container_service.parse_links_content]
  refine ⟨?_, ?_, ?_, ?_⟩
  · rw [hurls]
  · rw [hurls]
  · rw [hurls]
  · rw [hurls]
    simp [List.length_eq_zero]

/-- Witness for C8 at concrete content mixing comments, www lines and
plain URLs. -/
theorem C8_witness :
    (container_service.parse_links_content
        "# heading\nwww.a.com\nnot a url\n  http://b.org \n").urls =
      ((splitLines "# heading\nwww.a.com\nnot a url\n  http://b.org \n".data).filterMap
        spec.linkLineSpec).map String.mk :=
  (C8_links_expansion "# heading\nwww.a.com\nnot a url\n  http://b.org \n").1

end TCM
